import Mathlib

/-!
# Verification of the cerberus multi-agent coordination core

Shallow embedding of the agent coordination core (base agent message
handling, quorum consensus, intersection auction/priority engine,
fairness tracker, emergency preemption) translated from the TypeScript
sources:

* `src/lib/agents/base-agent.ts` — `handleIncomingMessage`,
  `gatherConsensus`
* `src/lib/agents/intersection-agent.ts` — queues, `calculatePriority`,
  `shouldNegotiate`, `runAuctionNegotiation`, `executeCrossingOrder`,
  `updateFairnessScores`, `handleCrossingRequest`,
  `handleEmergencyPreemption`, `estimateWaitTime`
* `src/lib/nvidia.ts` — `NemotronClient.reason`

Modelling conventions: JavaScript numbers are embedded as exact
rationals (`ℚ`); timestamps are integer epoch milliseconds (`Int`);
JavaScript `Map`s are association lists with `Map.get`/`Map.set`
semantics (`mapGet`/`mapSet`, insertion order preserved, set on an
existing key overwrites in place); a thrown JS exception is tracked
explicitly in a `raised : Option String` field of a trace record, and
external effects (messages inserted into the coordination channel,
database writes) are collected in lists.  `Math.ceil(n * 0.51)` and
`Math.ceil(n * 0.7)` are embedded as exact rational ceilings
(`jsCeil`): for every count `n` the IEEE-754 double computation agrees
with the exact rational one (the relative error of the rounded
constants 0.51 and 0.7 is below half an ulp, so products that are
rationally integral round to that exact integer and non-integral
products stay within the same integer gap), checked concretely at all
sizes appearing below.
-/

namespace Cerberus

/-- `Math.ceil (num / den)` on natural operands: exact rational ceiling. -/
def jsCeil (num den : Nat) : Nat := (num + den - 1) / den

/-- JS `Map.get` over an insertion-ordered association list. -/
def mapGet {α : Type} (l : List (String × α)) (k : String) : Option α :=
  (l.find? (fun e => e.1 == k)).map (fun e => e.2)

/-- JS `Map.set`: overwrite in place if the key exists, else append. -/
def mapSet {α : Type} : List (String × α) → String → α → List (String × α)
  | [], k, v => [(k, v)]
  | e :: rest, k, v => if e.1 = k then (k, v) :: rest else e :: mapSet rest k v

/-! ## Base agent: incoming message handling (`base-agent.ts`) -/

/-- Status value written by `updateMessageStatus`. -/
inductive MsgStatus where
  | delivered
  | expired
deriving DecidableEq, Repr

/-- Payload object carried by a coordination message; fields absent from a
concrete JS payload are `none` / `""` / `0`. -/
structure Payload where
  type : String := ""
  vehicleId : String := ""
  company : String := ""
  passengers : Option ℚ := none
  batteryLevel : Option ℚ := none
  waitTime : Option ℚ := none
  direction : String := ""
  duration : ℚ := 0
deriving DecidableEq, Repr

/-- A coordination message (`Message` in `base-agent.ts`); `timestamp` is
epoch milliseconds, `ttl` is in seconds. -/
structure Message where
  msg_id : String
  timestamp : Int
  sender : String
  recipient : String
  message_type : String
  priority : Int
  payload : Payload
  ttl : Int
deriving DecidableEq, Repr

/-- Observable outcome of `handleIncomingMessage`: the status written by
`updateMessageStatus` (if any), whether `processMessage` was invoked, and
the exception that propagated out of the call (if any). -/
structure HandleResult (ε : Type) where
  statusUpdate : Option MsgStatus
  handlerInvoked : Bool
  raised : Option ε
deriving DecidableEq, Repr

/-- `BaseAgent.handleIncomingMessage` (`base-agent.ts` lines 79–91): if the
message age exceeds `ttl * 1000` ms it is marked expired and the handler is
not invoked; otherwise `processMessage` runs, and only when it returns
normally is the message marked delivered — there is no try/catch, so a
handler exception propagates and no status is written. -/
def handleIncomingMessage {ε : Type} (now : Int)
    (processMessage : Message → Except ε Unit) (m : Message) : HandleResult ε :=
  if now - m.timestamp > m.ttl * 1000 then
    { statusUpdate := some .expired, handlerInvoked := false, raised := none }
  else
    match processMessage m with
    | .ok _ => { statusUpdate := some .delivered, handlerInvoked := true, raised := none }
    | .error e => { statusUpdate := none, handlerInvoked := true, raised := some e }

/-! ## Consensus engine (`base-agent.ts`, `gatherConsensus`) -/

/-- One merge step of the response-collection loop: every
acceptance/rejection row returned by the poll query is written into the
`responses` map (`responses.set(msg.sender, msg.message_type ===
'acceptance')`), so a duplicate response from the same sender overwrites
the earlier one (last one wins). -/
def applyPoll (resp : List (String × Bool)) (msgs : List (String × Bool)) :
    List (String × Bool) :=
  msgs.foldl (fun r e => mapSet r e.1 e.2) resp

/-- The `while (Date.now() - startTime < timeoutMs)` polling loop of
`gatherConsensus`, discretized by poll iterations: `poll i` is the list of
`(sender, isAcceptance)` rows visible at the `i`-th database query, and
`maxPolls` is how many iterations fit in `timeoutMs`.  The loop breaks as
soon as the number of collected responses reaches the quorum count. -/
def runPolls (quorum : Nat) (poll : Nat → List (String × Bool)) :
    Nat → List (String × Bool)
  | 0 => []
  | k + 1 =>
    let prev := runPolls quorum poll k
    if quorum ≤ prev.length then prev else applyPoll prev (poll k)

/-- `BaseAgent.gatherConsensus` (`base-agent.ts` lines 145–189): collect
responses until `responses.size >= Math.ceil(participants.length * 0.7)`
or the timeout elapses, then return
`approved = (approvals >= Math.ceil(responses.size * 0.51))` together with
the response map.  There is no separate timeout/failed status: the result
type is exactly `{approved, responses}`. -/
def gatherConsensus (participants : List String)
    (poll : Nat → List (String × Bool)) (maxPolls : Nat) :
    Bool × List (String × Bool) :=
  let responses := runPolls (jsCeil (participants.length * 7) 10) poll maxPolls
  let approvals := (responses.filter (fun e => e.2)).length
  (decide (jsCeil (responses.length * 51) 100 ≤ approvals), responses)

/-! ## Intersection agent (`intersection-agent.ts`) -/

/-- A queued crossing request; `arrivalTime` is epoch milliseconds,
`waitTime` seconds. -/
structure CrossingRequest where
  vehicleId : String
  company : String
  arrivalTime : Int
  waitTime : ℚ
  priority : ℚ
  passengers : ℚ
  batteryLevel : ℚ
  direction : String
deriving DecidableEq, Repr

/-- In-memory state of an `IntersectionAgent`: the eight directional
queues (insertion-ordered map), the in-flight negotiation ids, and the
per-company fairness tracker.  The `emergency_active` flag written by
`handleEmergencyPreemption` lives only in the external
`intersection_states` table (a `DbWrite` below), not in agent memory. -/
structure IntersectionState where
  queues : List (String × List CrossingRequest)
  currentNegotiations : List String
  fairnessTracker : List (String × ℚ)
deriving DecidableEq, Repr

/-- The eight directions initialized by `initializeQueues`. -/
def directions : List String :=
  ["north", "south", "east", "west", "northeast", "northwest", "southeast", "southwest"]

/-- `initializeQueues`: one empty queue per direction. -/
def initializeQueues : List (String × List CrossingRequest) :=
  directions.map (fun d => (d, []))

/-- Argument shape accepted by `calculatePriority` (a JS object that may
lack `waitTime` / `passengers` / `batteryLevel`). -/
structure PriorityInput where
  waitTime : Option ℚ := none
  passengers : Option ℚ := none
  batteryLevel : Option ℚ := none
  company : String := ""
deriving DecidableEq, Repr

/-- `payload.batteryLevel < 20` in JS: comparing `undefined` with a number
is false. -/
def batteryBelow20 : Option ℚ → Bool
  | some b => decide (b < 20)
  | none => false

/-- `IntersectionAgent.calculatePriority` (lines 110–129): wait-time score
`(waitTime || 0) / 60 * 10`, passenger bonus `passengers * 5`, a bump of 50
when `batteryLevel < 20`, minus the company's fairness penalty, clamped to
`Math.max(0, priority)`. -/
def calculatePriority (tracker : List (String × ℚ)) (input : PriorityInput) : ℚ :=
  let p1 : ℚ := 0 + input.waitTime.getD 0 / 60 * 10
  let p2 := p1 + input.passengers.getD 0 * 5
  let p3 := if batteryBelow20 input.batteryLevel then p2 + 50 else p2
  let companyPenalty := (mapGet tracker input.company).getD 0
  max 0 (p3 - companyPenalty)

/-- `IntersectionAgent.shouldNegotiate` (lines 131–138): at least two
non-empty directional queues and no negotiation in flight.  Note that no
emergency state is consulted. -/
def shouldNegotiate (s : IntersectionState) : Bool :=
  let activeDirections := s.queues.countP (fun e => decide (0 < e.2.length))
  decide (2 ≤ activeDirections) && decide (s.currentNegotiations.length = 0)

/-- `IntersectionAgent.estimateWaitTime`: queue length times the
15-second average crossing time; 0 for an unknown direction. -/
def estimateWaitTime (s : IntersectionState) (direction : String) : ℚ :=
  match mapGet s.queues direction with
  | none => 0
  | some q => (q.length : ℚ) * 15

/-- Outbound messages produced by the intersection handlers, with their
variable parts (`crossing-request-ack` info messages, `crossing-permission`
info messages at priority 10, `emergency-yield` emergency messages at
priority 1000). -/
inductive OutMessage where
  | crossingRequestAck (recipient : String) (position : Nat) (estimatedWait : ℚ)
  | crossingPermission (recipient : String) (waitTime : ℚ)
  | emergencyYield (recipient : String)
deriving DecidableEq, Repr

/-- External store writes performed by the intersection handlers: the
`coordination_events` insert logging a negotiation, and the
`intersection_states` upsert carrying `emergency_active` and
`emergency_duration`. -/
inductive DbWrite where
  | negotiationEvent (participants : List String)
  | intersectionState (emergencyActive : Bool) (emergencyDuration : ℚ)
deriving DecidableEq, Repr

/-- Trace of one handler call: resulting agent state, messages sent,
database writes, and the exception that propagated (if any). -/
structure HandlerRun where
  state : IntersectionState
  sent : List OutMessage
  writes : List DbWrite
  raised : Option String
deriving DecidableEq, Repr

/-- The JS value produced by the decision adapter as consumed by
`executeCrossingOrder`: either an object carrying an iterable
`crossingOrder` array (with `waitTimes` and `fairnessAdjustments` maps),
or any other shape — the `{error: ...}` object `NemotronClient.reason`
returns on failure, or a parsed LLM reply without a `crossingOrder` key —
whose `crossingOrder` property is `undefined`. -/
inductive AdapterResult where
  | wellFormed (crossingOrder : List String) (waitTimes : List (String × ℚ))
      (fairnessAdjustments : List (String × ℚ))
  | malformed
deriving DecidableEq, Repr

/-- Outcome of the `fetch` call inside `NemotronClient.reason`:
the HTTP call rejects, returns a non-ok status, or returns a body whose
`choices[0]?.message?.content` is absent (`none`) or some string. -/
inductive FetchOutcome where
  | networkError (msg : String)
  | httpError (status : Nat)
  | okBody (content : Option String)
deriving DecidableEq, Repr

/-- `NemotronClient.reason` (`nvidia.ts` lines 34–73): a rejected fetch or
non-ok status is caught and turned into `{error: 'Reasoning failed'}`; an
unparsable body becomes `{error: 'Failed to parse response'}`; both are
returned, not thrown.  `parse` models `JSON.parse` plus the shape of the
parsed object (`none` for a parse failure). -/
def reason (fetch : FetchOutcome) (parse : String → Option AdapterResult) :
    AdapterResult :=
  match fetch with
  | .networkError _ => .malformed
  | .httpError _ => .malformed
  | .okBody none => .malformed
  | .okBody (some content) =>
    match parse content with
    | none => .malformed
    | some r => r

/-- `applyAdjustments`: the first half of `updateFairnessScores` — each
`fairnessAdjustments` entry is added onto the company's current penalty
(`this.fairnessTracker.get(company) || 0`). -/
def applyAdjustments (t : List (String × ℚ)) (adjs : List (String × ℚ)) :
    List (String × ℚ) :=
  adjs.foldl (fun acc e => mapSet acc e.1 ((mapGet acc e.1).getD 0 + e.2)) t

/-- `decayAll`: the second half of `updateFairnessScores` — every tracked
company's penalty is multiplied by 0.95 (= 19/20). -/
def decayAll (t : List (String × ℚ)) : List (String × ℚ) :=
  t.map (fun e => (e.1, e.2 * (19 / 20 : ℚ)))

/-- `IntersectionAgent.updateFairnessScores` (lines 222–234): apply the
round's adjustments, then decay all penalties. -/
def updateFairnessScores (t : List (String × ℚ)) (adjs : List (String × ℚ)) :
    List (String × ℚ) :=
  decayAll (applyAdjustments t adjs)

/-- `queue.findIndex(r => r.vehicleId === vehicleId)` followed by
`queue.splice(index, 1)`: remove the first matching request of one queue,
returning the request found (if any). -/
def removeFirst (q : List CrossingRequest) (vid : String) :
    List CrossingRequest × Option CrossingRequest :=
  match q with
  | [] => ([], none)
  | r :: rest =>
    if r.vehicleId = vid then (rest, some r)
    else
      let p := removeFirst rest vid
      (r :: p.1, p.2)

/-- The `this.queuesByDirection.forEach` search in `executeCrossingOrder`:
every directional queue is scanned (and spliced on a match); the request
variable keeps the match from the last direction that had one. -/
def removeVehicle (queues : List (String × List CrossingRequest)) (vid : String) :
    List (String × List CrossingRequest) × Option CrossingRequest :=
  queues.foldl
    (fun acc e =>
      let p := removeFirst e.2 vid
      (acc.1 ++ [(e.1, p.1)], match p.2 with | some r => some r | none => acc.2))
    ([], none)

/-- `IntersectionAgent.executeCrossingOrder` (lines 188–220): for each
vehicle id in `crossingOrder`, remove it from the queues and, when found,
send it a `crossing-permission` with `waitTimes[vehicleId] || 0`. -/
def executeCrossingOrder (queues : List (String × List CrossingRequest))
    (crossingOrder : List String) (waitTimes : List (String × ℚ)) :
    List (String × List CrossingRequest) × List OutMessage :=
  crossingOrder.foldl
    (fun acc vid =>
      let p := removeVehicle acc.1 vid
      match p.2 with
      | some _ =>
        (p.1, acc.2 ++ [OutMessage.crossingPermission ("vehicle-" ++ vid)
          ((mapGet waitTimes vid).getD 0)])
      | none => (p.1, acc.2))
    (queues, [])

/-- The wait-time/priority refresh `runAuctionNegotiation` performs on
every outstanding request before negotiating:
`req.waitTime = (Date.now() - req.arrivalTime) / 1000` and
`req.priority = this.calculatePriority({...req, waitTime})`. -/
def updateRequest (tracker : List (String × ℚ)) (now : Int)
    (r : CrossingRequest) : CrossingRequest :=
  let w : ℚ := ((now - r.arrivalTime : Int) : ℚ) / 1000
  { r with
    waitTime := w
    priority := calculatePriority tracker
      { waitTime := some w, passengers := some r.passengers,
        batteryLevel := some r.batteryLevel, company := r.company } }

/-- `allRequests`: the queues flattened in direction insertion order. -/
def collectRequests (queues : List (String × List CrossingRequest)) :
    List CrossingRequest :=
  (queues.map (fun e => e.2)).flatten

/-- `IntersectionAgent.runAuctionNegotiation` (lines 140–186).  The
negotiation id added at the start is removed again by the `finally`
block on every path, so `currentNegotiations` is restored.  The
outstanding requests are refreshed in place (visible in the queues even
when the round fails), then the adapter result is executed.  There is no
catch block and no deterministic fallback: if `makeDecision` throws the
error propagates, and if the result has no iterable `crossingOrder`
(the adapter's `{error: ...}` object), destructuring-and-iterating it
throws a `TypeError` that propagates; only a well-formed result leads to
permissions, fairness update and the `coordination_events` insert. -/
def runAuctionNegotiation (s : IntersectionState) (now : Int)
    (adapter : Except String AdapterResult) : HandlerRun :=
  let updatedQueues :=
    s.queues.map (fun e => (e.1, e.2.map (updateRequest s.fairnessTracker now)))
  let allRequests := collectRequests updatedQueues
  match adapter with
  | .error e =>
    { state := { s with queues := updatedQueues }, sent := [], writes := [],
      raised := some e }
  | .ok .malformed =>
    { state := { s with queues := updatedQueues }, sent := [], writes := [],
      raised := some "TypeError: crossingOrder is not iterable" }
  | .ok (.wellFormed crossingOrder waitTimes fairnessAdjustments) =>
    let p := executeCrossingOrder updatedQueues crossingOrder waitTimes
    { state :=
        { s with
          queues := p.1
          fairnessTracker := updateFairnessScores s.fairnessTracker fairnessAdjustments }
      sent := p.2
      writes := [DbWrite.negotiationEvent (allRequests.map (fun r => r.vehicleId))]
      raised := none }

/-- `IntersectionAgent.handleCrossingRequest` (lines 75–108): build the
request, push it onto the direction's queue if that queue exists (an
unknown direction silently drops the request), possibly run an auction,
then acknowledge with `position: queue?.length || 0` — the live array
length after any auction removals — and the estimated wait.  If the
auction throws, the exception propagates and the ack is never sent. -/
def handleCrossingRequest (s : IntersectionState) (now : Int)
    (adapter : Except String AdapterResult) (m : Message) : HandlerRun :=
  let request : CrossingRequest :=
    { vehicleId := m.payload.vehicleId
      company := m.payload.company
      arrivalTime := now
      waitTime := 0
      priority := calculatePriority s.fairnessTracker
        { waitTime := m.payload.waitTime, passengers := m.payload.passengers,
          batteryLevel := m.payload.batteryLevel, company := m.payload.company }
      passengers := m.payload.passengers.getD 0
      batteryLevel := m.payload.batteryLevel.getD 100
      direction := m.payload.direction }
  match mapGet s.queues m.payload.direction with
  | none =>
    { state := s
      sent := [OutMessage.crossingRequestAck m.sender 0
        (estimateWaitTime s m.payload.direction)]
      writes := []
      raised := none }
  | some q =>
    let s1 := { s with queues := mapSet s.queues m.payload.direction (q ++ [request]) }
    if shouldNegotiate s1 then
      let run := runAuctionNegotiation s1 now adapter
      match run.raised with
      | some _ => run
      | none =>
        let liveLen := ((mapGet run.state.queues m.payload.direction).getD []).length
        { run with
          sent := run.sent ++ [OutMessage.crossingRequestAck m.sender liveLen
            (estimateWaitTime run.state m.payload.direction)] }
    else
      { state := s1
        sent := [OutMessage.crossingRequestAck m.sender (q.length + 1)
          (estimateWaitTime s1 m.payload.direction)]
        writes := []
        raised := none }

/-- `IntersectionAgent.handleEmergencyPreemption` (lines 236–261): send an
`emergency-yield` (priority 1000) to every queued vehicle, clear every
directional queue, and upsert the external intersection state with
`emergency_active: true` and the corridor duration.  No in-memory
emergency flag is set. -/
def handleEmergencyPreemption (s : IntersectionState) (m : Message) : HandlerRun :=
  let sent := (collectRequests s.queues).map
    (fun r => OutMessage.emergencyYield ("vehicle-" ++ r.vehicleId))
  { state := { s with queues := s.queues.map (fun e => (e.1, [])) }
    sent := sent
    writes := [DbWrite.intersectionState true m.payload.duration]
    raised := none }

/-- A company's fairness penalty as the code reads it:
`this.fairnessTracker.get(company) || 0`. -/
def penalty (t : List (String × ℚ)) (c : String) : ℚ := (mapGet t c).getD 0

/-- A queued request used by the concrete auction-failure scenario. -/
def northRequest : CrossingRequest :=
  { vehicleId := "v1", company := "waymo", arrivalTime := 0, waitTime := 0,
    priority := 0, passengers := 0, batteryLevel := 100, direction := "north" }

/-- A second queued request, from the opposite direction. -/
def southRequest : CrossingRequest :=
  { vehicleId := "v2", company := "zoox", arrivalTime := 0, waitTime := 0,
    priority := 0, passengers := 0, batteryLevel := 100, direction := "south" }

/-- An intersection with two contested directions and no auction in
flight: exactly the situation in which `runAuctionNegotiation` fires. -/
def contestedState : IntersectionState :=
  { queues := mapSet (mapSet initializeQueues "north" [northRequest]) "south" [southRequest]
    currentNegotiations := []
    fairnessTracker := [] }

/-- An intersection with one vehicle (`v0`, east) queued, about to receive
an emergency preemption. -/
def preEmergencyState : IntersectionState :=
  { queues := mapSet initializeQueues "east"
      [{ vehicleId := "v0", company := "cruise", arrivalTime := 0, waitTime := 0,
         priority := 0, passengers := 0, batteryLevel := 100, direction := "east" }]
    currentNegotiations := []
    fairnessTracker := [] }

/-- The emergency-preemption message for the concrete scenario: a
60-second corridor announced at time 0. -/
def emergencyMsg : Message :=
  { msg_id := "em1", timestamp := 0, sender := "master-orchestrator",
    recipient := "intersection-x", message_type := "emergency", priority := 1000,
    payload := { type := "emergency-preemption", duration := 60 }, ttl := 60 }

/-- A crossing request from `v1`, direction north, sent right after the
preemption (1 second in, far inside the 60-second corridor). -/
def northRequestMsg : Message :=
  { msg_id := "cr1", timestamp := 1000, sender := "vehicle-v1",
    recipient := "intersection-x", message_type := "info", priority := 5,
    payload := { type := "crossing-request", vehicleId := "v1", company := "waymo",
                 direction := "north" }, ttl := 60 }

/-- A crossing request from `v2`, direction south, 2 seconds into the
corridor: it makes two directions non-empty. -/
def southRequestMsg : Message :=
  { msg_id := "cr2", timestamp := 2000, sender := "vehicle-v2",
    recipient := "intersection-x", message_type := "info", priority := 5,
    payload := { type := "crossing-request", vehicleId := "v2", company := "zoox",
                 direction := "south" }, ttl := 60 }

/-- State of the preempted intersection after the first post-emergency
crossing request (north queue non-empty, no auction yet). -/
def afterNorthState : IntersectionState :=
  (handleCrossingRequest (handleEmergencyPreemption preEmergencyState emergencyMsg).state
    1000 (Except.error "unused") northRequestMsg).state

/-! # Helper lemmas -/

theorem mapGet_cons {α : Type} (e : String × α) (rest : List (String × α)) (c : String) :
    mapGet (e :: rest) c = if e.1 = c then some e.2 else mapGet rest c := by
  unfold mapGet
  by_cases h : e.1 = c
  · rw [List.find?_cons_of_pos _ (by simpa using h)]
    simp [h]
  · rw [List.find?_cons_of_neg _ (by simpa using h)]
    simp [h]

theorem mapGet_mapSet {α : Type} (l : List (String × α)) (k c : String) (v : α) :
    mapGet (mapSet l k v) c = if k = c then some v else mapGet l c := by
  induction l with
  | nil => simp [mapSet, mapGet_cons, mapGet]
  | cons e rest ih =>
    by_cases hek : e.1 = k
    · simp only [mapSet, if_pos hek, mapGet_cons]
      by_cases hkc : k = c
      · simp [hkc]
      · have hec : ¬ e.1 = c := by rw [hek]; exact hkc
        simp [mapGet_cons, hkc, hec]
    · simp only [mapSet, if_neg hek, mapGet_cons]
      by_cases hec : e.1 = c
      · have hkc : ¬ k = c := fun h => hek (by rw [hec, h])
        simp [hec, hkc]
      · simp [hec, ih]

theorem mapGet_map_snd {α β : Type} (f : α → β) (l : List (String × α)) (c : String) :
    mapGet (l.map (fun e => (e.1, f e.2))) c = (mapGet l c).map f := by
  induction l with
  | nil => simp [mapGet]
  | cons e rest ih =>
    by_cases hec : e.1 = c
    · simp [mapGet_cons, hec]
    · simpa [mapGet_cons, hec] using ih

theorem mapSet_keys_mem {α : Type} (l : List (String × α)) (k x : String) (v : α)
    (hx : x ∈ (mapSet l k v).map Prod.fst) : x = k ∨ x ∈ l.map Prod.fst := by
  induction l with
  | nil => simpa [mapSet] using hx
  | cons e rest ih =>
    by_cases hek : e.1 = k
    · simp only [mapSet, if_pos hek, List.map_cons, List.mem_cons] at hx
      rcases hx with h | h
      · exact Or.inl h
      · exact Or.inr (by simp [h])
    · simp only [mapSet, if_neg hek, List.map_cons, List.mem_cons] at hx
      rcases hx with h | h
      · exact Or.inr (by simp [h])
      · rcases ih h with h' | h'
        · exact Or.inl h'
        · exact Or.inr (by simp [h'])

theorem mapSet_keys_nodup {α : Type} (l : List (String × α)) (k : String) (v : α)
    (h : (l.map Prod.fst).Nodup) : ((mapSet l k v).map Prod.fst).Nodup := by
  induction l with
  | nil => simp [mapSet]
  | cons e rest ih =>
    simp only [List.map_cons, List.nodup_cons] at h
    by_cases hek : e.1 = k
    · simp only [mapSet, if_pos hek, List.map_cons, List.nodup_cons]
      exact ⟨hek ▸ h.1, h.2⟩
    · simp only [mapSet, if_neg hek, List.map_cons, List.nodup_cons]
      refine ⟨fun hmem => ?_, ih h.2⟩
      rcases mapSet_keys_mem rest k e.1 v hmem with h' | h'
      · exact hek h'
      · exact h.1 h'

theorem applyPoll_keys_nodup (resp msgs : List (String × Bool))
    (h : (resp.map Prod.fst).Nodup) : ((applyPoll resp msgs).map Prod.fst).Nodup := by
  induction msgs generalizing resp with
  | nil => simpa [applyPoll] using h
  | cons e rest ih =>
    simpa [applyPoll] using ih (mapSet resp e.1 e.2) (mapSet_keys_nodup resp e.1 e.2 h)

theorem runPolls_keys_nodup (quorum : Nat) (poll : Nat → List (String × Bool))
    (n : Nat) : ((runPolls quorum poll n).map Prod.fst).Nodup := by
  induction n with
  | zero => simp [runPolls]
  | succ k ih =>
    simp only [runPolls]
    split
    · exact ih
    · exact applyPoll_keys_nodup _ _ ih

theorem runPolls_empty_poll (quorum : Nat) (n : Nat) :
    runPolls quorum (fun _ => []) n = [] := by
  induction n with
  | zero => rfl
  | succ k ih => simp [runPolls, ih, applyPoll]

theorem penalty_decayAll (t : List (String × ℚ)) (c : String) :
    penalty (decayAll t) c = penalty t c * (19 / 20) := by
  unfold penalty decayAll
  rw [mapGet_map_snd (fun x => x * (19 / 20 : ℚ))]
  cases mapGet t c <;> simp

theorem penalty_applyAdjustments_of_uninvolved (t adjs : List (String × ℚ))
    (c : String) (h : ∀ e ∈ adjs, e.1 ≠ c) :
    penalty (applyAdjustments t adjs) c = penalty t c := by
  induction adjs generalizing t with
  | nil => rfl
  | cons a rest ih =>
    simp only [applyAdjustments, List.foldl_cons] at *
    rw [ih _ (fun e he => h e (List.mem_cons_of_mem a he))]
    unfold penalty
    rw [mapGet_mapSet, if_neg (h a (List.mem_cons_self a rest))]

theorem penalty_updateFairnessScores (t adjs : List (String × ℚ)) (c : String) :
    penalty (updateFairnessScores t adjs) c
      = penalty (applyAdjustments t adjs) c * (19 / 20) := by
  unfold updateFairnessScores
  exact penalty_decayAll _ _

theorem penalty_rounds_uninvolved (t0 : List (String × ℚ)) (c : String)
    (adjss : List (List (String × ℚ)))
    (h : ∀ adjs ∈ adjss, ∀ e ∈ adjs, e.1 ≠ c) :
    penalty (adjss.foldl updateFairnessScores t0) c
      = penalty t0 c * (19 / 20) ^ adjss.length := by
  induction adjss generalizing t0 with
  | nil => simp
  | cons a rest ih =>
    have hrest : ∀ adjs ∈ rest, ∀ e ∈ adjs, e.1 ≠ c :=
      fun adjs hm => h adjs (List.mem_cons_of_mem a hm)
    have ha : ∀ e ∈ a, e.1 ≠ c := h a (List.mem_cons_self a rest)
    rw [List.foldl_cons, ih _ hrest, penalty_updateFairnessScores,
      penalty_applyAdjustments_of_uninvolved _ _ _ ha, List.length_cons,
      pow_succ]
    ring

/-! # Claim theorems -/

/-- C2, counterexample.  The claim says a handler exception is caught and
the message is still marked Delivered.  On a live message whose handler
throws, `handleIncomingMessage` writes no status at all and the exception
propagates out of the delivery callback: the claim is false. -/
theorem claim2_counterexample :
    (handleIncomingMessage 1000 (fun _ => Except.error "handler exception")
      { msg_id := "m1", timestamp := 0, sender := "vehicle-v9",
        recipient := "intersection-x", message_type := "info", priority := 5,
        payload := {}, ttl := 60 })
    = { statusUpdate := none, handlerInvoked := true,
        raised := some "handler exception" } := rfl

/-- C2, amended.  `handleIncomingMessage` has no try/catch: for every
non-expired message whose handler throws, the handler is invoked but the
exception propagates out of `handleIncomingMessage` and the message is
never marked Delivered (no status is written at all). -/
theorem claim2_exception_not_caught {ε : Type} (now : Int)
    (processMessage : Message → Except ε Unit) (m : Message) (e : ε)
    (hlive : now - m.timestamp ≤ m.ttl * 1000)
    (herr : processMessage m = Except.error e) :
    handleIncomingMessage now processMessage m
      = { statusUpdate := none, handlerInvoked := true, raised := some e } := by
  unfold handleIncomingMessage
  rw [if_neg (not_lt.mpr hlive), herr]

/-- C2, witness: the amended theorem applied to a concrete live message
with a throwing handler. -/
theorem claim2_witness :
    handleIncomingMessage 1500 (fun _ => Except.error "boom")
      { msg_id := "m2", timestamp := 0, sender := "district-1",
        recipient := "fleet-waymo", message_type := "info", priority := 5,
        payload := {}, ttl := 60 }
    = { statusUpdate := none, handlerInvoked := true, raised := some "boom" } :=
  claim2_exception_not_caught 1500 _ _ "boom" (by decide) rfl

/-- C3, counterexample.  The claim says every non-expired message is
marked Delivered once `processMessage` has been invoked on it.  A live
(non-expired) message whose handler throws is never marked Delivered: no
status is written. -/
theorem claim3_counterexample :
    ¬ ((500 : Int) - 100 > 30 * 1000)
    ∧ (handleIncomingMessage 500 (fun _ => Except.error "crash")
        { msg_id := "m3", timestamp := 100, sender := "vehicle-v4",
          recipient := "intersection-y", message_type := "info", priority := 5,
          payload := {}, ttl := 30 }).statusUpdate = none :=
  ⟨by decide, rfl⟩

/-- C3, amended.  The TTL gate holds exactly as claimed: a message is
marked Expired iff its age exceeds `ttl` seconds, and `processMessage` is
invoked iff it is not expired; but the message is marked Delivered iff it
is not expired AND the handler returned normally — a throwing handler
leaves the message unmarked. -/
theorem claim3_ttl_gate {ε : Type} (now : Int)
    (processMessage : Message → Except ε Unit) (m : Message) :
    ((handleIncomingMessage now processMessage m).statusUpdate = some MsgStatus.expired
      ↔ now - m.timestamp > m.ttl * 1000)
    ∧ ((handleIncomingMessage now processMessage m).handlerInvoked = true
      ↔ ¬ (now - m.timestamp > m.ttl * 1000))
    ∧ ((handleIncomingMessage now processMessage m).statusUpdate = some MsgStatus.delivered
      ↔ (¬ (now - m.timestamp > m.ttl * 1000) ∧ processMessage m = Except.ok ())) := by
  unfold handleIncomingMessage
  by_cases h : now - m.timestamp > m.ttl * 1000
  · simp [h]
  · cases hpm : processMessage m with
    | ok u => cases u; simp [h, hpm]
    | error e => simp [h, hpm]

/-- C5, counterexample.  The claim says that with 10 participants and only
6 responses the round's outcome is Timeout, distinct from Approved.  In
the code quorum (7) is indeed never reached, but `gatherConsensus` has no
Timeout outcome at all: it still computes approval over the 6 received
responses and returns `approved = true` (4 accepts ≥ ceil(6·0.51) = 4). -/
theorem claim5_counterexample :
    (gatherConsensus ["p1","p2","p3","p4","p5","p6","p7","p8","p9","p10"]
      (fun _ => [("p1",true),("p2",true),("p3",true),("p4",true),
                 ("p5",false),("p6",false)]) 5).1 = true
    ∧ ¬ (jsCeil (10 * 7) 10 ≤
        (gatherConsensus ["p1","p2","p3","p4","p5","p6","p7","p8","p9","p10"]
          (fun _ => [("p1",true),("p2",true),("p3",true),("p4",true),
                     ("p5",false),("p6",false)]) 5).2.length) := by
  decide

/-- C5, amended.  With 10 participants and a poll stream that only ever
shows 6 responses (4 accept, 2 reject), the quorum count
ceil(10·0.7) = 7 is never reached, so the wait loop runs to its timeout —
but there is no Timeout status: `gatherConsensus` returns
`approved = true` because 4 ≥ ceil(6·0.51) = 4.  With 7 responses
(4 accept, 3 reject) quorum is reached and the result is again
`approved = true` since 4 ≥ ceil(7·0.51) = 4. -/
theorem claim5_quorum_math :
    ((gatherConsensus ["p1","p2","p3","p4","p5","p6","p7","p8","p9","p10"]
        (fun _ => [("p1",true),("p2",true),("p3",true),("p4",true),
                   ("p5",false),("p6",false)]) 5).2.length = 6
      ∧ ¬ (jsCeil (10 * 7) 10 ≤ 6)
      ∧ (gatherConsensus ["p1","p2","p3","p4","p5","p6","p7","p8","p9","p10"]
          (fun _ => [("p1",true),("p2",true),("p3",true),("p4",true),
                     ("p5",false),("p6",false)]) 5).1 = true)
    ∧ ((gatherConsensus ["p1","p2","p3","p4","p5","p6","p7","p8","p9","p10"]
        (fun _ => [("p1",true),("p2",true),("p3",true),("p4",true),
                   ("p5",false),("p6",false),("p7",false)]) 5).2.length = 7
      ∧ jsCeil (10 * 7) 10 ≤ 7
      ∧ (gatherConsensus ["p1","p2","p3","p4","p5","p6","p7","p8","p9","p10"]
          (fun _ => [("p1",true),("p2",true),("p3",true),("p4",true),
                     ("p5",false),("p6",false),("p7",false)]) 5).1 = true) := by
  decide

/-- C6, counterexample.  The claim says approval holds iff the Acceptance
votes strictly exceed 50% of the responses received.  In a round where
nobody responds, 0 accepts do not exceed 50% of 0 responses, yet the code
approves (0 ≥ ceil(0·0.51) = 0): the claimed iff is false. -/
theorem claim6_counterexample :
    (gatherConsensus ["a","b","c"] (fun _ => []) 5).1 = true
    ∧ ¬ (2 * ((gatherConsensus ["a","b","c"] (fun _ => []) 5).2.filter
          (fun e => e.2)).length
        > (gatherConsensus ["a","b","c"] (fun _ => []) 5).2.length) := by
  decide

/-- C6, amended.  A consensus round is approved iff the number of
Acceptance votes among the responses actually received is at least
`Math.ceil(0.51 · responses)` — a threshold over the received responses
only, not the full participant set (for n = 0 this approves vacuously, and
for e.g. n = 51 it requires 27 accepts although 26 is already a strict
majority).  Each responder is counted once: the response map's keys are
distinct, so a participant that never responds contributes to neither side
of the threshold. -/
theorem claim6_approval_threshold (participants : List String)
    (poll : Nat → List (String × Bool)) (maxPolls : Nat) :
    ((gatherConsensus participants poll maxPolls).1 = true
      ↔ jsCeil ((gatherConsensus participants poll maxPolls).2.length * 51) 100
        ≤ ((gatherConsensus participants poll maxPolls).2.filter (fun e => e.2)).length)
    ∧ ((gatherConsensus participants poll maxPolls).2.map Prod.fst).Nodup := by
  constructor
  · simp [gatherConsensus]
  · simpa [gatherConsensus] using
      runPolls_keys_nodup (jsCeil (participants.length * 7) 10) poll maxPolls

/-- C9.  A consensus round in which no Acceptance/Rejection response ever
arrives returns `approved = true` with an empty response map: 0 accepts
satisfy the threshold ceil(0 · 0.51) = 0, so a proposal met by total
silence is reported as approved. -/
theorem claim9_silent_round_approved (participants : List String) (maxPolls : Nat) :
    gatherConsensus participants (fun _ => []) maxPolls = (true, []) := by
  unfold gatherConsensus
  rw [runPolls_empty_poll]
  rfl

/-- C7.  For every crossing request (wait time, passenger count, battery
level and company given), the computed priority equals
`(waitTime / 60) · 10 + passengers · 5 + (50 if batteryLevel < 20 else 0)
− fairness penalty of the company`, clamped from below at 0 — in
particular it is never negative. -/
theorem claim7_priority_formula (tracker : List (String × ℚ)) (w p b : ℚ)
    (c : String) :
    calculatePriority tracker
        { waitTime := some w, passengers := some p, batteryLevel := some b,
          company := c }
      = max 0 (w / 60 * 10 + p * 5 + (if b < 20 then (50 : ℚ) else 0)
          - penalty tracker c)
    ∧ 0 ≤ calculatePriority tracker
        { waitTime := some w, passengers := some p, batteryLevel := some b,
          company := c } := by
  constructor
  · unfold calculatePriority batteryBelow20 penalty
    simp only [Option.getD_some, decide_eq_true_eq]
    by_cases hb : b < 20
    · rw [if_pos hb, if_pos hb]
      ring_nf
    · rw [if_neg hb, if_neg hb]
      ring_nf
  · exact le_max_left 0 _

/-- C8.  `updateFairnessScores` first applies the round's adjustments and
then multiplies every tracked company's penalty — involved or not — by the
fixed decay factor 0.95 = 19/20; hence over any sequence of rounds none of
whose adjustment lists mentions a given company, that company's penalty
equals `penalty₀ · 0.95^N`, and the sequence `|penalty₀| · 0.95^n` is
monotonically non-increasing and eventually drops below any positive ε. -/
theorem claim8_fairness_decay (t0 : List (String × ℚ)) (c : String)
    (adjss : List (List (String × ℚ))) (ε : ℚ)
    (h : ∀ adjs ∈ adjss, ∀ e ∈ adjs, e.1 ≠ c) (hε : 0 < ε) :
    (∀ t adjs c', penalty (updateFairnessScores t adjs) c'
        = penalty (applyAdjustments t adjs) c' * (19 / 20))
    ∧ penalty (adjss.foldl updateFairnessScores t0) c
        = penalty t0 c * (19 / 20) ^ adjss.length
    ∧ (∀ n m : ℕ, n ≤ m →
        |penalty t0 c * (19 / 20) ^ m| ≤ |penalty t0 c * (19 / 20) ^ n|)
    ∧ ∃ N : ℕ, |penalty t0 c * (19 / 20) ^ N| < ε := by
  have habs : ∀ n : ℕ, |penalty t0 c * ((19 : ℚ) / 20) ^ n|
      = |penalty t0 c| * ((19 : ℚ) / 20) ^ n := by
    intro n
    rw [abs_mul, abs_pow, abs_of_pos (show (0 : ℚ) < 19 / 20 by norm_num)]
  refine ⟨fun t adjs c' => penalty_updateFairnessScores t adjs c',
    penalty_rounds_uninvolved t0 c adjss h, ?_, ?_⟩
  · intro n m hnm
    rw [habs n, habs m]
    refine mul_le_mul_of_nonneg_left ?_ (abs_nonneg _)
    exact pow_le_pow_of_le_one (by norm_num) (by norm_num) hnm
  · by_cases hp : |penalty t0 c| = 0
    · exact ⟨0, by rw [habs 0, hp]; simpa using hε⟩
    · have hp0 : 0 < |penalty t0 c| := lt_of_le_of_ne (abs_nonneg _) (Ne.symm hp)
      obtain ⟨N, hN⟩ := exists_pow_lt_of_lt_one (div_pos hε hp0)
        (show (19 : ℚ) / 20 < 1 by norm_num)
      refine ⟨N, ?_⟩
      rw [habs N]
      calc |penalty t0 c| * ((19 : ℚ) / 20) ^ N
          < |penalty t0 c| * (ε / |penalty t0 c|) :=
            mul_lt_mul_of_pos_left hN hp0
        _ = ε := by field_simp

/-- C8, witness: one round adjusting only company `cruise` multiplies
`waymo`'s penalty of 20 by 0.95, as the decay theorem predicts. -/
theorem claim8_witness :
    penalty ([[("cruise", (3 : ℚ))]].foldl updateFairnessScores
      [("waymo", (20 : ℚ))]) "waymo"
      = penalty [("waymo", (20 : ℚ))] "waymo" * (19 / 20) ^ 1 :=
  (claim8_fairness_decay [("waymo", 20)] "waymo" [[("cruise", 3)]] 1
    (by decide) (by norm_num)).2.1

/-- C1, counterexample.  The claim says that when the decision adapter
errors, times out, or returns a malformed result, the auction falls back
to sort-and-slot and completes without raising.  At a contested
intersection (two queued vehicles, two directions), handing
`runAuctionNegotiation` the adapter's error-object result makes it raise a
TypeError and send no crossing permission at all — there is no fallback. -/
theorem claim1_counterexample :
    (runAuctionNegotiation contestedState 1000
        (Except.ok AdapterResult.malformed)).raised
      = some "TypeError: crossingOrder is not iterable"
    ∧ (runAuctionNegotiation contestedState 1000
        (Except.ok AdapterResult.malformed)).sent = [] := by
  decide

/-- C1, amended.  `NemotronClient.reason` itself never raises on an API
failure: a rejected fetch, a non-ok HTTP status, or an unparsable body all
produce an error object (`malformed`).  But `runAuctionNegotiation` has no
deterministic sort-and-slot fallback: whenever the adapter call yields
such a result, destructuring and iterating the missing `crossingOrder`
raises a TypeError that propagates to the caller, with no permissions sent
and no negotiation event logged; and if the adapter call itself throws
(e.g. missing API key), that error propagates likewise.  In both cases the
`finally` block restores `currentNegotiations`. -/
theorem claim1_no_fallback (s : IntersectionState) (now : Int)
    (fetch : FetchOutcome) (parse : String → Option AdapterResult) (e : String)
    (hfail : reason fetch parse = AdapterResult.malformed) :
    ((runAuctionNegotiation s now (Except.ok (reason fetch parse))).raised
        = some "TypeError: crossingOrder is not iterable"
      ∧ (runAuctionNegotiation s now (Except.ok (reason fetch parse))).sent = []
      ∧ (runAuctionNegotiation s now (Except.ok (reason fetch parse))).writes = []
      ∧ (runAuctionNegotiation s now
          (Except.ok (reason fetch parse))).state.currentNegotiations
        = s.currentNegotiations)
    ∧ ((runAuctionNegotiation s now (Except.error e)).raised = some e
      ∧ (runAuctionNegotiation s now (Except.error e)).sent = []
      ∧ (runAuctionNegotiation s now
          (Except.error e)).state.currentNegotiations = s.currentNegotiations)
    ∧ (∀ (msg : String) (status : Nat) (p : String → Option AdapterResult),
        reason (FetchOutcome.networkError msg) p = AdapterResult.malformed
        ∧ reason (FetchOutcome.httpError status) p = AdapterResult.malformed
        ∧ reason (FetchOutcome.okBody none) p = AdapterResult.malformed) := by
  rw [hfail]
  exact ⟨⟨rfl, rfl, rfl, rfl⟩, ⟨rfl, rfl, rfl⟩, fun _ _ _ => ⟨rfl, rfl, rfl⟩⟩

/-- C1, witness: the amended theorem applied at the contested intersection
with an adapter whose fetch rejects. -/
theorem claim1_witness :
    (runAuctionNegotiation contestedState 1000
        (Except.ok (reason (FetchOutcome.networkError "ECONNREFUSED")
          (fun _ => none)))).raised
      = some "TypeError: crossingOrder is not iterable" :=
  (claim1_no_fallback contestedState 1000 (FetchOutcome.networkError "ECONNREFUSED")
    (fun _ => none) "Error: NVIDIA_API_KEY not configured" rfl).1.1

/-- C4, counterexample.  The claim says that after an emergency preemption
no new auction is triggered until the corridor duration elapses.  The
preemption does clear the queues and send each queued vehicle a yield
instruction, but 2 seconds into the 60-second corridor two fresh crossing
requests (north, then south) already trigger a full auction — the
negotiation event is logged — because nothing suppresses
`shouldNegotiate`. -/
theorem claim4_counterexample :
    (handleEmergencyPreemption preEmergencyState emergencyMsg).sent
      = [OutMessage.emergencyYield "vehicle-v0"]
    ∧ (∀ d ∈ directions,
        mapGet (handleEmergencyPreemption preEmergencyState emergencyMsg).state.queues d
          = some [])
    ∧ (handleCrossingRequest afterNorthState 2000
        (Except.ok (AdapterResult.wellFormed ["v1", "v2"] [] []))
        southRequestMsg).writes
      = [DbWrite.negotiationEvent ["v1", "v2"]] := by
  decide

/-- C4, amended.  Processing an emergency preemption clears every
directional queue, sends each queued vehicle an explicit emergency-yield
instruction, records `emergency_active` with the corridor duration in the
external intersection-state store, and raises nothing — but auction
triggering is not suspended: `shouldNegotiate` consults only queue
occupancy and in-flight negotiations, so a new auction fires as soon as
two directions become non-empty again (here 2 seconds into a 60-second
corridor). -/
theorem claim4_preemption (s : IntersectionState) (m : Message) :
    ((∀ d, mapGet (handleEmergencyPreemption s m).state.queues d
        = (mapGet s.queues d).map (fun _ => ([] : List CrossingRequest)))
      ∧ (handleEmergencyPreemption s m).sent
        = (collectRequests s.queues).map
          (fun r => OutMessage.emergencyYield ("vehicle-" ++ r.vehicleId))
      ∧ (handleEmergencyPreemption s m).writes
        = [DbWrite.intersectionState true m.payload.duration]
      ∧ (handleEmergencyPreemption s m).raised = none)
    ∧ (handleCrossingRequest afterNorthState 2000
        (Except.ok (AdapterResult.wellFormed ["v1", "v2"] [] []))
        southRequestMsg).writes
      = [DbWrite.negotiationEvent ["v1", "v2"]] := by
  refine ⟨⟨fun d => ?_, rfl, rfl, rfl⟩, by decide⟩
  exact mapGet_map_snd (fun _ => []) s.queues d

/-- C10.  A crossing request whose direction is not one of the eight
initialized queues changes nothing — no queue gains the request, no
auction runs, nothing is written, nothing is raised — yet the sender still
receives a `crossing-request-ack` reporting queue position 0 and estimated
wait 0: the request is silently discarded. -/
theorem claim10_unknown_direction (s : IntersectionState) (now : Int)
    (adapter : Except String AdapterResult) (m : Message)
    (h : mapGet s.queues m.payload.direction = none) :
    handleCrossingRequest s now adapter m
      = { state := s,
          sent := [OutMessage.crossingRequestAck m.sender 0 0],
          writes := [], raised := none } := by
  simp [handleCrossingRequest, estimateWaitTime, h]

/-- C10, witness: a freshly initialized intersection receiving a request
with direction "up" acknowledges with position 0 and wait 0 while keeping
its state unchanged. -/
theorem claim10_witness :
    handleCrossingRequest
      { queues := initializeQueues, currentNegotiations := [], fairnessTracker := [] }
      0 (Except.ok AdapterResult.malformed)
      { msg_id := "u1", timestamp := 0, sender := "vehicle-vx",
        recipient := "intersection-x", message_type := "info", priority := 5,
        payload := { type := "crossing-request", vehicleId := "vx",
                     company := "waymo", direction := "up" }, ttl := 60 }
    = { state := { queues := initializeQueues, currentNegotiations := [],
                   fairnessTracker := [] },
        sent := [OutMessage.crossingRequestAck "vehicle-vx" 0 0],
        writes := [], raised := none } :=
  claim10_unknown_direction _ 0 _ _ (by decide)

end Cerberus
